import Mathlib

/-!
Verification of the scoring and ranking engine of the youtube-recommender
repository (files `backend/recommender.py`, `backend/youtube_service.py`,
`backend/analyzers/`).

Modelling conventions:
  - Python numbers are modelled by `Int` and exact rationals `Rat`
    (Python float arithmetic is idealised as exact rational arithmetic;
    every constant in the source, such as `0.8`, is exactly representable).
  - A Python dict value is modelled by the inductive type `JVal`
    (string, integer, or nested dict); a record passed to the ranker is a
    `Dict` (association list).  Operations that can raise in Python
    (`d["k"]` KeyError, `.get` on a non-dict AttributeError, `int(...)` on a
    non-numeric value ValueError or TypeError, `re.match` on a non-string
    TypeError, `.replace` on a non-string AttributeError) are modelled with
    `Option`: a `none` result models the raised exception.
  - `math.log10` and the wall-clock dependent timestamp parsing of
    `calculate_recency_score` are modelled by an explicit environment
    `Env` carrying a `log10` function and a `days_old` function
    (`days_old s = none` models `datetime.fromisoformat` failing with
    `ValueError`, which the source catches and maps to the 0.5 default).
  - Rational division by zero is total in Lean (`q / 0 = 0`); theorems about
    `calculate_relevance_score` therefore carry a positivity hypothesis on
    `max_results` where Python would raise `ZeroDivisionError`.
-/

/-- Model of a Python value as it appears in the YouTube API records:
a string, an integer, or a nested dictionary. -/
inductive JVal where
  | str (v : String)
  | int (v : Int)
  | dict (fields : List (String × JVal))

/-- A Python dict with string keys, as passed to `rank_videos`. -/
abbrev Dict := List (String × JVal)

/-- Model of Python `d.get(key, default)` where `d` is known to be a dict. -/
def dictGet (d : Dict) (key : String) (default : JVal) : JVal :=
  (d.lookup key).getD default

/-- Model of Python `v.get(key, default)` on an arbitrary value: raises
(`none`) unless `v` is a dict, mirroring `AttributeError`. -/
def jget (v : JVal) (key : String) (default : JVal) : Option JVal :=
  match v with
  | .dict fields => some (dictGet fields key default)
  | _ => none

/-- Digits of a decimal string folded to a natural number. -/
def digitsToNat (ds : List Char) : Nat :=
  ds.foldl (fun a c => 10 * a + (c.toNat - 48)) 0

/-- Model of Python `str.strip()` over the character list: drop whitespace
from both ends. -/
def pyStrip (s : String) : List Char :=
  ((s.toList.dropWhile Char.isWhitespace).reverse.dropWhile
    Char.isWhitespace).reverse

/-- Model of Python `int(s)` on a string: optional sign followed by one or
more decimal digits (surrounding whitespace stripped); anything else raises
`ValueError` (`none`). -/
def strToInt (s : String) : Option Int :=
  let cs := pyStrip s
  match cs with
  | [] => none
  | '-' :: rest =>
    if rest ≠ [] ∧ rest.all Char.isDigit then some (-(digitsToNat rest : Int)) else none
  | '+' :: rest =>
    if rest ≠ [] ∧ rest.all Char.isDigit then some ((digitsToNat rest : Int)) else none
  | _ =>
    if cs.all Char.isDigit then some ((digitsToNat cs : Int)) else none

/-- Model of Python `int(v)`: integers pass through, numeric strings are
parsed, anything else raises (`none`). -/
def pyInt (v : JVal) : Option Int :=
  match v with
  | .int n => some n
  | .str s => strToInt s
  | .dict _ => none

/-- Projection to a string; `none` models a `TypeError`/`AttributeError`
raised when a string operation is applied to a non-string. -/
def asStr (v : JVal) : Option String :=
  match v with
  | .str s => some s
  | _ => none

/-- Projection to an integer; `none` models the `TypeError` raised when a
non-number is used in arithmetic or an ordered comparison with a number. -/
def asInt (v : JVal) : Option Int :=
  match v with
  | .int n => some n
  | _ => none

/-- Greedy match of one optional regex group `(\d+)U` for a unit letter `U`,
as in the pattern `PT(?:(\d+)H)?(?:(\d+)M)?(?:(\d+)S)?` of
`YouTubeService.parse_duration`: take the maximal digit run; the group
matches exactly when the run is non-empty and immediately followed by the
unit letter, otherwise the input is left untouched. -/
def matchGroup (unit : Char) (cs : List Char) : Option Nat × List Char :=
  let ds := cs.takeWhile (fun c => c.isDigit)
  let rest := cs.dropWhile (fun c => c.isDigit)
  if ds.isEmpty then (none, cs)
  else if rest.head? = some unit then (some (digitsToNat ds), rest.tail)
  else (none, cs)

/-- Model of `YouTubeService.parse_duration`: `re.match` anchors the pattern
at position 0, so the literal `PT` must be a prefix; each of the H, M, S
groups is optional and a missing group counts as zero; a string that does
not start with `PT` gives no match and the function returns 0. -/
def parse_duration (duration_str : String) : Nat :=
  let cs := duration_str.toList
  if cs.take 2 = ['P', 'T'] then
    let cs1 := cs.drop 2
    let (h, cs2) := matchGroup 'H' cs1
    let (m, cs3) := matchGroup 'M' cs2
    let (s, _) := matchGroup 'S' cs3
    h.getD 0 * 3600 + m.getD 0 * 60 + s.getD 0
  else 0

/-- Model of the Python format specifier `{n:02d}` for a non-negative `n`:
pad with a leading zero to width two. -/
def pad2 (n : Nat) : String :=
  if n < 10 then "0" ++ Nat.repr n else Nat.repr n

/-- Model of `YouTubeService.format_duration`. -/
def format_duration (seconds : Nat) : String :=
  let hours := seconds / 3600
  let minutes := seconds % 3600 / 60
  let secs := seconds % 60
  if hours > 0 then
    Nat.repr hours ++ ":" ++ pad2 minutes ++ ":" ++ pad2 secs
  else
    Nat.repr minutes ++ ":" ++ pad2 secs

/-- Modelled from the spec: zero-pad a number to two digits (pad exactly
when the plain decimal rendering is shorter than two characters). -/
def padTwoSpec (n : Nat) : String :=
  if (Nat.repr n).length < 2 then "0" ++ Nat.repr n else Nat.repr n

/-- Modelled from the spec: render seconds as `H:MM:SS` when the hour part
is positive, else `M:SS`, minutes and seconds zero-padded to two digits and
hours not padded.  The minute component is written as `seconds / 60 % 60`,
the canonical decomposition used by the spec. -/
def formatDurationSpec (seconds : Nat) : String :=
  let hours := seconds / 3600
  let minutes := seconds / 60 % 60
  let secs := seconds % 60
  if hours > 0 then
    Nat.repr hours ++ ":" ++ padTwoSpec minutes ++ ":" ++ padTwoSpec secs
  else
    Nat.repr minutes ++ ":" ++ padTwoSpec secs

/-- Static configuration of `Recommender` (loaded from `config.yaml` in the
source): the five scoring weights, the duration bucket thresholds, the
filter defaults and the comment-analysis flag. -/
structure Config where
  relevance_weight : Rat
  like_ratio_weight : Rat
  view_count_weight : Rat
  recency_weight : Rat
  duration_match_weight : Rat
  short_max_minutes : Rat
  medium_min_minutes : Rat
  medium_max_minutes : Rat
  long_min_minutes : Rat
  default_max_results : Int
  final_recommendations : Nat
  comment_analysis_enabled : Bool

/-- Ambient environment for the two effectful ingredients of scoring:
`log10` models `math.log10` (on the integer arguments the source feeds it),
and `days_old` models parsing a timestamp with `datetime.fromisoformat` and
subtracting it from `datetime.now` (`none` models a `ValueError`, caught by
the source). -/
structure Env where
  log10 : Int → Rat
  days_old : String → Option Int

/-- Model of the `ScoreBreakdown` dataclass: all six fields default to 0. -/
structure ScoreBreakdown where
  relevance : Rat := 0
  like_ratio : Rat := 0
  views : Rat := 0
  recency : Rat := 0
  duration_match : Rat := 0
  comment_quality : Rat := 0
  deriving DecidableEq

/-- Model of the `VideoRecommendation` dataclass. -/
structure VideoRecommendation where
  video_id : JVal
  title : JVal
  channel : JVal
  thumbnail : JVal
  duration : String
  duration_seconds : Nat
  view_count : Int
  like_count : Int
  published_at : JVal
  score : Rat
  score_breakdown : ScoreBreakdown

/-- Model of the analysis result returned by an analyzer
(`analyzers/base.py`). -/
structure AnalysisResult where
  score : Rat
  flags : List String := []
  reason : String := ""

/-- Model of `CommentAnalyzer.analyze` (`analyzers/comment_analyzer.py`):
the MVP stub always returns the neutral score 1.0 with no flags. -/
def CommentAnalyzer.analyze (enabled : Bool) (_video_id : String)
    (_video_data : Dict) : AnalysisResult :=
  if enabled then
    { score := 1, flags := [], reason := "Comment analysis not yet implemented" }
  else
    { score := 1, flags := [], reason := "Comment analysis disabled in MVP" }

/-- Model of the analyzer list built in `Recommender.__init__`: the comment
analyzer is registered exactly when `comment_analysis.enabled` is set.  The
list is never consulted by `calculate_score` or `rank_videos`. -/
def Recommender.analyzers (cfg : Config) : List (String × Dict → AnalysisResult) :=
  if cfg.comment_analysis_enabled then
    [fun v => CommentAnalyzer.analyze true v.1 v.2]
  else []

/-- Model of `Recommender.calculate_relevance_score`. -/
def calculate_relevance_score (search_rank max_results : Int) : Rat :=
  if search_rank ≥ max_results then 0
  else 1 - (search_rank : Rat) / (max_results : Rat)

/-- Model of `Recommender.calculate_like_ratio_score`. -/
def calculate_like_ratio_score (view_count like_count : Int) : Rat :=
  if like_count = 0 then 0
  else
    let ratio : Rat := (view_count : Rat) / (like_count : Rat)
    if ratio ≤ 20 then 1
    else if ratio ≤ 50 then 0.8 + (50 - ratio) / 150
    else if ratio ≤ 100 then 0.5 + (100 - ratio) / 100
    else if ratio ≤ 200 then 0.2 + (200 - ratio) / 500
    else max 0.1 (0.2 - (ratio - 200) / 1000)

/-- Model of `Recommender.calculate_view_score`.  `math.log10` is taken
from the environment; the source computes `max(all_view_counts)` only after
checking the list is non-empty, and falls through to the absolute scale
`min(1.0, log_views / 7)` when the list is empty or `max_log ≤ 0`. -/
def calculate_view_score (env : Env) (view_count : Int)
    (all_view_counts : List Int) : Rat :=
  if view_count ≤ 0 then 0
  else
    let log_views := env.log10 (view_count + 1)
    match all_view_counts with
    | [] => min 1 (log_views / 7)
    | x :: xs =>
      let max_log := env.log10 (xs.foldl max x + 1)
      if max_log > 0 then log_views / max_log
      else min 1 (log_views / 7)

/-- Model of `Recommender.calculate_recency_score`.  The argument is the raw
value extracted from the record: a non-string raises `AttributeError` on
`.replace`, which the `except (ValueError, TypeError)` clause does not catch
(`none`); an unparseable string raises `ValueError`, which is caught and
mapped to 0.5 (`env.days_old` returning `none`). -/
def calculate_recency_score (env : Env) (published_at : JVal) : Option Rat :=
  match published_at with
  | .str s =>
    some (match env.days_old s with
      | none => 0.5
      | some days_old =>
        if days_old ≤ 30 then 1
        else if days_old ≤ 90 then 0.9 - ((days_old : Rat) - 30) / 600
        else if days_old ≤ 365 then 0.7 - ((days_old : Rat) - 90) / 1100
        else if days_old ≤ 730 then 0.4 - ((days_old : Rat) - 365) / 1825
        else max 0.1 (0.2 - ((days_old : Rat) - 730) / 3650))
  | _ => none

/-- Model of `Recommender.calculate_duration_match_score`; the bucket
thresholds come from the configuration. -/
def calculate_duration_match_score (cfg : Config) (duration_seconds : Int)
    (preference : Option String) : Rat :=
  match preference with
  | none => 1
  | some p =>
    if p = "any" then 1
    else
      let duration_minutes : Rat := (duration_seconds : Rat) / 60
      if p = "short" then
        let max_minutes := cfg.short_max_minutes
        if duration_minutes ≤ max_minutes then 1
        else if duration_minutes ≤ max_minutes * 2 then 0.5
        else 0.2
      else if p = "medium" then
        let min_minutes := cfg.medium_min_minutes
        let max_minutes := cfg.medium_max_minutes
        if min_minutes ≤ duration_minutes ∧ duration_minutes ≤ max_minutes then 1
        else if duration_minutes < min_minutes then 0.7
        else if duration_minutes ≤ max_minutes * 1.5 then 0.6
        else 0.3
      else if p = "long" then
        let min_minutes := cfg.long_min_minutes
        if duration_minutes ≥ min_minutes then 1
        else if duration_minutes ≥ min_minutes * 0.5 then 0.6
        else 0.3
      else 1

/-- The `statistics` sub-dict of a record, defaulting to the empty dict. -/
def getStatistics (video : Dict) : JVal :=
  dictGet video "statistics" (.dict [])

/-- The `contentDetails` sub-dict of a record, defaulting to the empty dict. -/
def getContentDetails (video : Dict) : JVal :=
  dictGet video "contentDetails" (.dict [])

/-- The `snippet` sub-dict of a record, defaulting to the empty dict. -/
def getSnippet (video : Dict) : JVal :=
  dictGet video "snippet" (.dict [])

/-- Model of `int(video.get("statistics", {}).get("viewCount", 0))`. -/
def extract_view_count (video : Dict) : Option Int :=
  (jget (getStatistics video) "viewCount" (.int 0)).bind pyInt

/-- Model of `int(video.get("statistics", {}).get("likeCount", 0))`. -/
def extract_like_count (video : Dict) : Option Int :=
  (jget (getStatistics video) "likeCount" (.int 0)).bind pyInt

/-- Model of `video.get("contentDetails", {}).get("duration", "PT0S")`,
which is then fed to `re.match` and so must be a string. -/
def extract_duration (video : Dict) : Option String :=
  (jget (getContentDetails video) "duration" (.str "PT0S")).bind asStr

/-- Model of `video.get("snippet", {}).get("publishedAt", "")`. -/
def extract_published_at (video : Dict) : Option JVal :=
  jget (getSnippet video) "publishedAt" (.str "")

/-- Model of `video.get("search_rank", 999)`, which is then compared and
divided as a number and so must be an integer. -/
def extract_search_rank (video : Dict) : Option Int :=
  asInt (dictGet video "search_rank" (.int 999))

/-- Model of `video.get("snippet", {}).get("title", "")`. -/
def extract_title (video : Dict) : Option JVal :=
  jget (getSnippet video) "title" (.str "")

/-- Model of `video.get("snippet", {}).get("channelTitle", "")`. -/
def extract_channel (video : Dict) : Option JVal :=
  jget (getSnippet video) "channelTitle" (.str "")

/-- Model of
`video.get("snippet", {}).get("thumbnails", {}).get("high", {}).get("url", "")`. -/
def extract_thumbnail (video : Dict) : Option JVal :=
  (jget (getSnippet video) "thumbnails" (.dict [])).bind fun t =>
    (jget t "high" (.dict [])).bind fun h =>
      jget h "url" (.str "")

/-- Model of `Recommender.calculate_score`: extracts the raw signals from
the record (missing fields default to 0, `PT0S`, the empty string), computes
the five component scores, multiplies each by its configured weight and sums
the five weighted values; the reserved `comment_quality` field stays at its
default 0.  A `none` result models an exception escaping the method. -/
def calculate_score (cfg : Config) (env : Env) (video : Dict)
    (search_rank max_results : Int) (all_view_counts : List Int)
    (duration_preference : Option String) : Option (Rat × ScoreBreakdown) := do
  let view_count ← extract_view_count video
  let like_count ← extract_like_count video
  let duration_str ← extract_duration video
  let published_at ← extract_published_at video
  let duration_seconds := parse_duration duration_str
  let relevance := calculate_relevance_score search_rank max_results
  let like_ratio := calculate_like_ratio_score view_count like_count
  let views := calculate_view_score env view_count all_view_counts
  let recency ← calculate_recency_score env published_at
  let duration_match :=
    calculate_duration_match_score cfg (duration_seconds : Int) duration_preference
  let breakdown : ScoreBreakdown :=
    { relevance := relevance * cfg.relevance_weight
      like_ratio := like_ratio * cfg.like_ratio_weight
      views := views * cfg.view_count_weight
      recency := recency * cfg.recency_weight
      duration_match := duration_match * cfg.duration_match_weight }
  let total_score :=
    breakdown.relevance + breakdown.like_ratio + breakdown.views +
      breakdown.recency + breakdown.duration_match
  some (total_score, breakdown)

/-- Model of Python `round` on an exact rational: round half to even. -/
def pyRoundInt (q : Rat) : Int :=
  if Int.fract q < 1 / 2 then ⌊q⌋
  else if 1 / 2 < Int.fract q then ⌊q⌋ + 1
  else if ⌊q⌋ % 2 = 0 then ⌊q⌋ else ⌊q⌋ + 1

/-- Model of Python `round(q, 4)`. -/
def round4 (q : Rat) : Rat :=
  (pyRoundInt (q * 10000) : Rat) / 10000

/-- The body of the per-record loop of `Recommender.rank_videos`: score the
record, re-extract the display fields and build one `VideoRecommendation`.
Note `video["id"]` is a plain subscript in the source: a missing `id`
raises `KeyError` (`none` here). -/
def build_rec (cfg : Config) (env : Env) (max_results : Int)
    (all_view_counts : List Int) (duration_preference : Option String)
    (video : Dict) : Option VideoRecommendation := do
  let search_rank ← extract_search_rank video
  let (score, breakdown) ← calculate_score cfg env video search_rank
    max_results all_view_counts duration_preference
  let duration_str ← extract_duration video
  let duration_seconds := parse_duration duration_str
  let video_id ← video.lookup "id"
  let title ← extract_title video
  let channel ← extract_channel video
  let thumbnail ← extract_thumbnail video
  let view_count ← extract_view_count video
  let like_count ← extract_like_count video
  let published_at ← extract_published_at video
  some
    { video_id := video_id
      title := title
      channel := channel
      thumbnail := thumbnail
      duration := format_duration duration_seconds
      duration_seconds := duration_seconds
      view_count := view_count
      like_count := like_count
      published_at := published_at
      score := round4 score
      score_breakdown := breakdown }

/-- Descending comparison on the rounded total score, the key of
`recommendations.sort(key=lambda x: x.score, reverse=True)`. -/
def scoreDesc (a b : VideoRecommendation) : Bool :=
  b.score ≤ a.score

/-- Model of `Recommender.rank_videos`: resolve `top_n` from the
configuration default, collect the batch view counts, score and build one
recommendation per record, sort by total score descending (a stable sort,
as in CPython) and keep the first `top_n` entries. -/
def rank_videos (cfg : Config) (env : Env) (videos : List Dict)
    (duration_preference : Option String) (top_n : Option Nat) :
    Option (List VideoRecommendation) := do
  let top_n := top_n.getD cfg.final_recommendations
  let max_results := cfg.default_max_results
  let all_view_counts ← videos.mapM extract_view_count
  let recommendations ← videos.mapM
    (build_rec cfg env max_results all_view_counts duration_preference)
  let sorted := recommendations.mergeSort scoreDesc
  some (sorted.take top_n)

/-- The `publishedAt` value extracted for recency scoring is a string (a
non-string raises inside `calculate_recency_score`, uncaught). -/
def publishedAtIsStr (video : Dict) : Bool :=
  match extract_published_at video with
  | some (.str _) => true
  | _ => false

/-- Well-formedness of one record: every extraction point of
`calculate_score` and of the recommendation constructor succeeds, i.e. the
fields that are present have the type the source consumes them at, and the
`id` key is present.  A record in which all of these fields are simply
missing satisfies every conjunct except the `id` one. -/
def recordWF (video : Dict) : Bool :=
  (extract_view_count video).isSome &&
  (extract_like_count video).isSome &&
  (extract_duration video).isSome &&
  publishedAtIsStr video &&
  (extract_search_rank video).isSome &&
  (video.lookup "id").isSome &&
  (extract_title video).isSome &&
  (extract_channel video).isSome &&
  (extract_thumbnail video).isSome

/-- Claim C2 (counterexample): the claim asserts `relevance(0, n) = 1 - 1/n`,
but the source computes `1 - 0/n = 1`; at `n = 2` the code yields 1, not 1/2. -/
theorem relevance_zero_rank_counterexample :
    calculate_relevance_score 0 2 ≠ 1 - 1 / (2 : Rat) := by
  norm_num [calculate_relevance_score]

/-- Claim C2 (amended): for every `n > 0`, `relevance(r, n) = 1 - r/n` for
`r < n` and 0 for `r ≥ n`; it is strictly decreasing over ranks `r < n`,
with `relevance(0, n) = 1` (not `1 - 1/n`) and `relevance(n, n) = 0`. -/
theorem relevance_spec (n : Int) (hn : 0 < n) :
    (∀ r : Int, r < n → calculate_relevance_score r n = 1 - (r : Rat) / (n : Rat)) ∧
    (∀ r : Int, n ≤ r → calculate_relevance_score r n = 0) ∧
    (∀ r₁ r₂ : Int, r₁ < r₂ → r₂ < n →
      calculate_relevance_score r₂ n < calculate_relevance_score r₁ n) ∧
    calculate_relevance_score 0 n = 1 ∧
    calculate_relevance_score n n = 0 := by
  have hnq : (0 : Rat) < (n : Rat) := by exact_mod_cast hn
  refine ⟨?_, ?_, ?_, ?_, ?_⟩
  · intro r hr
    unfold calculate_relevance_score
    rw [if_neg (not_le.mpr hr)]
  · intro r hr
    unfold calculate_relevance_score
    rw [if_pos hr]
  · intro r₁ r₂ h12 h2n
    have h1n : r₁ < n := lt_trans h12 h2n
    unfold calculate_relevance_score
    rw [if_neg (not_le.mpr h2n), if_neg (not_le.mpr h1n)]
    have hq : (r₁ : Rat) / (n : Rat) < (r₂ : Rat) / (n : Rat) := by
      gcongr
    linarith
  · unfold calculate_relevance_score
    rw [if_neg (not_le.mpr hn)]
    simp
  · unfold calculate_relevance_score
    rw [if_pos le_rfl]

/-- Claim C2 (witness): the amended statement instantiated at `n = 2`. -/
theorem relevance_spec_witness :
    (0 : Int) < 2 ∧
    ((∀ r : Int, r < 2 → calculate_relevance_score r 2 = 1 - (r : Rat) / (2 : Rat)) ∧
     (∀ r : Int, 2 ≤ r → calculate_relevance_score r 2 = 0) ∧
     (∀ r₁ r₂ : Int, r₁ < r₂ → r₂ < 2 →
       calculate_relevance_score r₂ 2 < calculate_relevance_score r₁ 2) ∧
     calculate_relevance_score 0 2 = 1 ∧
     calculate_relevance_score 2 2 = 0) :=
  ⟨by decide, relevance_spec 2 (by decide)⟩

/-- Claim C3 (code bug): with `likeCount = 1` fixed, moving the ratio from
50 to 51 (a strictly worse views-per-like ratio) raises the score from 0.8
to 0.99, because the third band of the source evaluates to
`0.5 + (100 - ratio)/100`, which is 0.99 just above ratio 50 although the
previous band ends at 0.8; the score is therefore not non-increasing in the
ratio, contradicting both the claim and the inline comment
`0.5 to 0.8` in the source. -/
theorem like_ratio_not_nonincreasing :
    calculate_like_ratio_score 50 1 = 0.8 ∧
    calculate_like_ratio_score 51 1 = 0.99 ∧
    calculate_like_ratio_score 50 1 < calculate_like_ratio_score 51 1 := by
  norm_num [calculate_like_ratio_score]

/-- Claim C4 (code bug): the source does pass through the breakpoint values
1.0 at ratio 20, 0.8 at 50, 0.5 at 100 and 0.2 at 200, but the bands between
them are not the segments of the claimed decreasing curve: at ratio 60 the
claimed curve (linear from 0.8 at 50 to 0.5 at 100) gives 0.74, while the
code gives `0.5 + (100 - 60)/100 = 0.9 > 0.8`; at ratio 150 the claimed
curve gives 0.35 while the code gives 0.3. -/
theorem like_ratio_band_values :
    calculate_like_ratio_score 20 1 = 1 ∧
    calculate_like_ratio_score 50 1 = 0.8 ∧
    calculate_like_ratio_score 100 1 = 0.5 ∧
    calculate_like_ratio_score 200 1 = 0.2 ∧
    calculate_like_ratio_score 60 1 = 0.9 ∧
    calculate_like_ratio_score 150 1 = 0.3 := by
  norm_num [calculate_like_ratio_score]

/-- Claim C9: `parseDuration` and `formatDuration` agree on the numeric
seconds value at the specified points, and malformed input parses to 0. -/
theorem parse_format_duration_examples :
    parse_duration "PT1H5M9S" = 3909 ∧
    format_duration 3909 = "1:05:09" ∧
    parse_duration "PT0S" = 0 ∧
    parse_duration "garbage" = 0 := by
  refine ⟨by decide, by decide, by decide, by decide⟩

/-- For arguments below 60 (the only ones the formatter produces for the
minute and second slots) the Python `{n:02d}` padding agrees with the
spec-side two-digit padding. -/
theorem pad2_eq_padTwoSpec : ∀ n, n < 60 → pad2 n = padTwoSpec n := by decide

/-- Claim C8: `format_duration` renders `H:MM:SS` when the hour part is
positive and `M:SS` otherwise, minutes and seconds zero-padded to two
digits, hours unpadded — stated as agreement with the rendering prescribed
by the spec on the canonical hour/minute/second decomposition. -/
theorem format_duration_matches_spec (s : Nat) :
    format_duration s = formatDurationSpec s := by
  have hm : s % 3600 / 60 = s / 60 % 60 := by omega
  simp only [format_duration, formatDurationSpec]
  rw [hm, pad2_eq_padTwoSpec _ (by omega), pad2_eq_padTwoSpec _ (by omega)]

/-- Claim C10: for every configuration, duration and preference value, the
duration-match score is one of the six constants 0.2, 0.3, 0.5, 0.6, 0.7,
1.0; in particular it is at least 0.2 and never 0. -/
theorem duration_match_range (cfg : Config) (d : Int) (pref : Option String) :
    calculate_duration_match_score cfg d pref ∈
      ([0.2, 0.3, 0.5, 0.6, 0.7, 1] : List Rat) ∧
    (0.2 : Rat) ≤ calculate_duration_match_score cfg d pref := by
  rcases pref with _ | p
  · simp only [calculate_duration_match_score]
    norm_num
  · simp only [calculate_duration_match_score]
    split_ifs <;> norm_num

/-- Folding `max` over a list starting from an element returns any value
that is in the list (or equals the seed) and bounds the seed and every
element from above — this is `max(all_view_counts)` in the source. -/
theorem foldl_max_eq (xs : List Int) : ∀ (x m : Int), m = x ∨ m ∈ xs → x ≤ m →
    (∀ y ∈ xs, y ≤ m) → xs.foldl max x = m := by
  induction xs with
  | nil =>
    intro x m hmem hx _
    rcases hmem with h | h
    · simp [h]
    · cases h
  | cons y ys ih =>
    intro x m hmem hx hub
    have hy : y ≤ m := hub y (List.mem_cons_self y ys)
    have hub' : ∀ z ∈ ys, z ≤ m := fun z hz => hub z (List.mem_cons_of_mem y hz)
    have hmem' : m = max x y ∨ m ∈ ys := by
      rcases hmem with h | h
      · left
        rw [h]
        exact (max_eq_left (h ▸ hy)).symm
      · rcases List.mem_cons.mp h with h | h
        · left
          rw [h]
          exact (max_eq_right (h ▸ hx)).symm
        · right
          exact h
    rw [List.foldl_cons]
    exact ih (max x y) m hmem' (max_le hx hy) hub'

/-- Claim C7: in a non-empty batch whose maximum view count `m` is positive,
the view score of `m` itself is exactly 1: the source divides
`log10(m + 1)` by `log10(max(batch) + 1)`, the two coincide, and the
quotient is taken exactly when that logarithm is positive (for the real
`log10`, `0 < log10 (m + 1)` holds for every `m > 0`, since `m + 1 ≥ 2`). -/
theorem view_score_of_max (env : Env) (m : Int) (l : List Int)
    (hmem : m ∈ l) (hub : ∀ x ∈ l, x ≤ m) (hm : 0 < m)
    (hlog : 0 < env.log10 (m + 1)) :
    calculate_view_score env m l = 1 := by
  cases l with
  | nil => cases hmem
  | cons x xs =>
    have hx : x ≤ m := hub x (List.mem_cons_self x xs)
    have hfold : xs.foldl max x = m := by
      refine foldl_max_eq xs x m ?_ hx (fun y hy => hub y (List.mem_cons_of_mem x hy))
      rcases List.mem_cons.mp hmem with h | h
      · exact Or.inl h
      · exact Or.inr h
    simp only [calculate_view_score]
    rw [if_neg (not_le.mpr hm), hfold, if_pos hlog]
    exact div_self (ne_of_gt hlog)

/-- A concrete environment for witnesses: a strictly increasing stand-in
for `log10` that is positive at 2, and a clock that fails to parse every
timestamp (so recency always takes its 0.5 fallback). -/
def envEx : Env where
  log10 := fun z => (z : Rat) - 1
  days_old := fun _ => none

/-- Claim C7 (witness): the singleton batch `[1]` with `m = 1`. -/
theorem view_score_of_max_witness :
    (1 : Int) ∈ [(1 : Int)] ∧ (∀ x ∈ [(1 : Int)], x ≤ 1) ∧ (0 : Int) < 1 ∧
    (0 : Rat) < envEx.log10 (1 + 1) ∧
    calculate_view_score envEx 1 [1] = 1 :=
  ⟨by decide, by decide, by decide, by norm_num [envEx],
   view_score_of_max envEx 1 [1] (by decide) (by decide) (by decide)
     (by norm_num [envEx])⟩

/-- Claim C6: whenever `calculate_score` returns, its total equals the sum
of the five weighted breakdown fields and the reserved `comment_quality`
field is 0 — for every configuration, in particular those with
`comment_analysis.enabled` set, since the analyzer list built in
`Recommender.__init__` is never consulted by the scoring path. -/
theorem calculate_score_total (cfg : Config) (env : Env) (video : Dict)
    (search_rank max_results : Int) (avc : List Int) (pref : Option String)
    (t : Rat) (b : ScoreBreakdown)
    (h : calculate_score cfg env video search_rank max_results avc pref
      = some (t, b)) :
    t = b.relevance + b.like_ratio + b.views + b.recency + b.duration_match ∧
    b.comment_quality = 0 := by
  simp only [calculate_score, bind, Option.bind_eq_some] at h
  obtain ⟨vc, hvc, h⟩ := h
  obtain ⟨lc, hlc, h⟩ := h
  obtain ⟨ds, hds, h⟩ := h
  obtain ⟨pa, hpa, h⟩ := h
  obtain ⟨rc, hrc, h⟩ := h
  simp only [Option.some.injEq, Prod.mk.injEq] at h
  obtain ⟨rfl, rfl⟩ := h
  exact ⟨rfl, rfl⟩

/-- A concrete configuration for witnesses: all five weights 1, the default
duration buckets (short up to 4 min, medium 4 to 20 min, long from 20 min),
search breadth 10, top 3 recommendations, comment analysis enabled. -/
def cfgEx : Config where
  relevance_weight := 1
  like_ratio_weight := 1
  view_count_weight := 1
  recency_weight := 1
  duration_match_weight := 1
  short_max_minutes := 4
  medium_min_minutes := 4
  medium_max_minutes := 20
  long_min_minutes := 20
  default_max_results := 10
  final_recommendations := 3
  comment_analysis_enabled := true

/-- Claim C6 (witness): the empty record, scored under `cfgEx` (which has
comment analysis enabled) at search rank 0 of 10, gives total
5/2 = 1 + 0 + 0 + 1/2 + 1 with `comment_quality` 0. -/
theorem calculate_score_total_witness :
    (5 / 2 : Rat) =
      (ScoreBreakdown.mk 1 0 0 (1 / 2) 1 0).relevance +
        (ScoreBreakdown.mk 1 0 0 (1 / 2) 1 0).like_ratio +
        (ScoreBreakdown.mk 1 0 0 (1 / 2) 1 0).views +
        (ScoreBreakdown.mk 1 0 0 (1 / 2) 1 0).recency +
        (ScoreBreakdown.mk 1 0 0 (1 / 2) 1 0).duration_match ∧
    (ScoreBreakdown.mk 1 0 0 (1 / 2) 1 0).comment_quality = 0 :=
  calculate_score_total cfgEx envEx [] 0 10 [] none (5 / 2) ⟨1, 0, 0, 1 / 2, 1, 0⟩
    (by norm_num [calculate_score, extract_view_count, extract_like_count,
      extract_duration, extract_published_at, getStatistics, getContentDetails,
      getSnippet, dictGet, jget, pyInt, asStr, calculate_recency_score,
      calculate_relevance_score, calculate_like_ratio_score,
      calculate_view_score, calculate_duration_match_score, cfgEx, envEx])

/-- Unpacking of `publishedAtIsStr`. -/
theorem publishedAtIsStr_spec {v : Dict} (h : publishedAtIsStr v = true) :
    ∃ s, extract_published_at v = some (JVal.str s) := by
  unfold publishedAtIsStr at h
  split at h
  · rename_i s heq
    exact ⟨s, heq⟩
  · simp at h

/-- The nine conjuncts of `recordWF`. -/
theorem recordWF_parts {v : Dict} (h : recordWF v = true) :
    (extract_view_count v).isSome ∧ (extract_like_count v).isSome ∧
    (extract_duration v).isSome ∧ publishedAtIsStr v = true ∧
    (extract_search_rank v).isSome ∧ (v.lookup "id").isSome ∧
    (extract_title v).isSome ∧ (extract_channel v).isSome ∧
    (extract_thumbnail v).isSome := by
  simpa [recordWF, Bool.and_eq_true, and_assoc] using h

/-- On a record whose statistics parse, whose duration value is a string
and whose publish timestamp is a string, `calculate_score` returns a value
(no exception escapes). -/
theorem calculate_score_isSome (cfg : Config) (env : Env) (v : Dict)
    (sr mr : Int) (avc : List Int) (pref : Option String)
    (h1 : (extract_view_count v).isSome) (h2 : (extract_like_count v).isSome)
    (h3 : (extract_duration v).isSome) (h4 : publishedAtIsStr v = true) :
    (calculate_score cfg env v sr mr avc pref).isSome := by
  obtain ⟨vc, hvc⟩ := Option.isSome_iff_exists.mp h1
  obtain ⟨lc, hlc⟩ := Option.isSome_iff_exists.mp h2
  obtain ⟨ds, hds⟩ := Option.isSome_iff_exists.mp h3
  obtain ⟨ps, hps⟩ := publishedAtIsStr_spec h4
  simp [calculate_score, hvc, hlc, hds, hps, calculate_recency_score]

/-- On a well-formed record the whole per-record loop body succeeds. -/
theorem build_rec_isSome (cfg : Config) (env : Env) (mr : Int)
    (avc : List Int) (pref : Option String) {v : Dict}
    (h : recordWF v = true) :
    (build_rec cfg env mr avc pref v).isSome := by
  obtain ⟨h1, h2, h3, h4, h5, h6, h7, h8, h9⟩ := recordWF_parts h
  obtain ⟨sr, hsr⟩ := Option.isSome_iff_exists.mp h5
  obtain ⟨tb, htb⟩ := Option.isSome_iff_exists.mp
    (calculate_score_isSome cfg env v sr mr avc pref h1 h2 h3 h4)
  obtain ⟨t, b⟩ := tb
  obtain ⟨vc, hvc⟩ := Option.isSome_iff_exists.mp h1
  obtain ⟨lc, hlc⟩ := Option.isSome_iff_exists.mp h2
  obtain ⟨ds, hds⟩ := Option.isSome_iff_exists.mp h3
  obtain ⟨ps, hps⟩ := publishedAtIsStr_spec h4
  obtain ⟨vid, hvid⟩ := Option.isSome_iff_exists.mp h6
  obtain ⟨ti, hti⟩ := Option.isSome_iff_exists.mp h7
  obtain ⟨ch, hch⟩ := Option.isSome_iff_exists.mp h8
  obtain ⟨th, hth⟩ := Option.isSome_iff_exists.mp h9
  simp [build_rec, hsr, htb, hvc, hlc, hds, hps, hvid, hti, hch, hth]

/-- Mapping a monadic function that succeeds on every element of a list
succeeds on the list, and preserves its length. -/
theorem mapM_isSome_of_forall {α β : Type} (f : α → Option β) :
    ∀ l : List α, (∀ a ∈ l, (f a).isSome) →
      ∃ l2, l.mapM f = some l2 ∧ l2.length = l.length := by
  intro l
  induction l with
  | nil => exact fun _ => ⟨[], by rw [← List.mapM'_eq_mapM]; rfl, rfl⟩
  | cons a as ih =>
    intro h
    obtain ⟨b, hb⟩ := Option.isSome_iff_exists.mp (h a (List.mem_cons_self a as))
    obtain ⟨bs, hbs, hlen⟩ := ih (fun x hx => h x (List.mem_cons_of_mem a hx))
    refine ⟨b :: bs, ?_, by simp [hlen]⟩
    rw [← List.mapM'_eq_mapM] at hbs ⊢
    simp [hb, hbs]

/-- The descending comparison is transitive. -/
theorem scoreDesc_trans (a b c : VideoRecommendation)
    (hab : scoreDesc a b) (hbc : scoreDesc b c) : scoreDesc a c := by
  simp only [scoreDesc, decide_eq_true_eq] at *
  exact le_trans hbc hab

/-- The descending comparison is total. -/
theorem scoreDesc_total (a b : VideoRecommendation) :
    scoreDesc a b || scoreDesc b a := by
  simp only [scoreDesc, Bool.or_eq_true, decide_eq_true_eq]
  exact le_total b.score a.score

/-- Core lemma shared by the ranking claims: on a batch of well-formed
records, `rank_videos` returns a list, that list is sorted by total score
descending, and its length is the minimum of the effective `top_n` and the
batch size. -/
theorem rank_videos_wf (cfg : Config) (env : Env) (videos : List Dict)
    (pref : Option String) (tn : Option Nat)
    (hwf : ∀ v ∈ videos, recordWF v = true) :
    ∃ l, rank_videos cfg env videos pref tn = some l ∧
      List.Sorted (fun a b => b.score ≤ a.score) l ∧
      l.length = min (tn.getD cfg.final_recommendations) videos.length := by
  obtain ⟨avc, havc, -⟩ := mapM_isSome_of_forall extract_view_count videos
    (fun v hv => (recordWF_parts (hwf v hv)).1)
  obtain ⟨recs, hrecs, hlen⟩ := mapM_isSome_of_forall
    (build_rec cfg env cfg.default_max_results avc pref) videos
    (fun v hv => build_rec_isSome cfg env cfg.default_max_results avc pref (hwf v hv))
  refine ⟨(recs.mergeSort scoreDesc).take (tn.getD cfg.final_recommendations),
    ?_, ?_, ?_⟩
  · show ((videos.mapM extract_view_count).bind fun all_view_counts =>
        (videos.mapM
          (build_rec cfg env cfg.default_max_results all_view_counts pref)).bind
          fun recommendations =>
          some ((recommendations.mergeSort scoreDesc).take
            (tn.getD cfg.final_recommendations))) =
      some ((recs.mergeSort scoreDesc).take (tn.getD cfg.final_recommendations))
    rw [havc, Option.some_bind, hrecs, Option.some_bind]
  · have hs : (recs.mergeSort scoreDesc).Pairwise (scoreDesc · ·) :=
      List.sorted_mergeSort scoreDesc_trans scoreDesc_total recs
    have hs2 : (recs.mergeSort scoreDesc).Pairwise
        (fun a b : VideoRecommendation => b.score ≤ a.score) :=
      hs.imp (fun hab => by simpa [scoreDesc, decide_eq_true_eq] using hab)
    exact hs2.sublist (List.take_sublist _ _)
  · simp [List.length_take, hlen]

/-- Claim C1: on every batch of well-formed records, for every duration
preference and every `top_n`, `rank_videos` returns a list sorted by total
score descending whose length is the minimum of the effective `top_n` (the
argument, or the configured default when absent) and the batch size; in
particular ranking an empty batch returns the empty list without error, and
when fewer records than `top_n` exist all of them are returned. -/
theorem rank_videos_sorted_and_length (cfg : Config) (env : Env)
    (videos : List Dict) (pref : Option String) (tn : Option Nat)
    (hwf : ∀ v ∈ videos, recordWF v = true) :
    (∃ l, rank_videos cfg env videos pref tn = some l ∧
      List.Sorted (fun a b => b.score ≤ a.score) l ∧
      l.length = min (tn.getD cfg.final_recommendations) videos.length) ∧
    rank_videos cfg env [] pref tn = some [] := by
  refine ⟨rank_videos_wf cfg env videos pref tn hwf, ?_⟩
  obtain ⟨l, hl, -, hlen⟩ := rank_videos_wf cfg env [] pref tn (by simp)
  have hnil : l = [] := List.length_eq_zero.mp (by simpa using hlen)
  rw [hl, hnil]

/-- A minimal well-formed record: only the mandatory `id` key is present,
every other extraction point takes its default. -/
def v1Ex : Dict := [("id", .str "a")]

/-- A richer well-formed record: explicit search rank and statistics, the
view count given as a numeric string as the YouTube API does. -/
def v2Ex : Dict :=
  [("id", .str "b"), ("search_rank", .int 0),
   ("statistics", .dict [("viewCount", .str "100"), ("likeCount", .int 5)])]

/-- Claim C1 (witness): a concrete two-record batch with `top_n = 1`. -/
theorem rank_videos_sorted_and_length_witness :
    (∀ v ∈ [v1Ex, v2Ex], recordWF v = true) ∧
    ((∃ l, rank_videos cfgEx envEx [v1Ex, v2Ex] (some "any") (some 1) = some l ∧
      List.Sorted (fun a b => b.score ≤ a.score) l ∧
      l.length = min ((some 1).getD cfgEx.final_recommendations)
        [v1Ex, v2Ex].length) ∧
     rank_videos cfgEx envEx [] (some "any") (some 1) = some []) :=
  ⟨by decide,
   rank_videos_sorted_and_length cfgEx envEx [v1Ex, v2Ex] (some "any") (some 1)
     (by decide)⟩

/-- Claim C5 (counterexample): the empty record — in particular one with no
`id` key — makes `rank_videos` raise `KeyError` at the plain subscript
`video["id"]` (modelled by `none`), although `calculate_score` itself
succeeds on that record; so ranking is not total over arbitrary record
dicts. -/
theorem rank_videos_missing_id_raises :
    rank_videos cfgEx envEx [([] : Dict)] none none = none := rfl

/-- Claim C5 (amended): on records whose present fields are well-typed
(statistics values numeric, duration and publish timestamp strings,
thumbnail chain dicts, search rank an integer) and which carry an `id` key,
scoring and ranking never raise; each extraction point substitutes its safe
default (0 counts, `PT0S`, empty string, sentinel rank 999) when the field
is missing. -/
theorem scoring_total_on_wf_records (cfg : Config) (env : Env)
    (videos : List Dict) (pref : Option String) (tn : Option Nat)
    (hwf : ∀ v ∈ videos, recordWF v = true) :
    (rank_videos cfg env videos pref tn).isSome ∧
    ∀ v ∈ videos, ∀ (sr mr : Int) (avc : List Int),
      (calculate_score cfg env v sr mr avc pref).isSome := by
  constructor
  · obtain ⟨l, hl, -, -⟩ := rank_videos_wf cfg env videos pref tn hwf
    simp [hl]
  · intro v hv sr mr avc
    obtain ⟨h1, h2, h3, h4, -⟩ := recordWF_parts (hwf v hv)
    exact calculate_score_isSome cfg env v sr mr avc pref h1 h2 h3 h4

/-- Claim C5 (witness): the singleton batch holding the minimal record. -/
theorem scoring_total_on_wf_records_witness :
    (∀ v ∈ [v1Ex], recordWF v = true) ∧
    ((rank_videos cfgEx envEx [v1Ex] none none).isSome ∧
     ∀ v ∈ [v1Ex], ∀ (sr mr : Int) (avc : List Int),
       (calculate_score cfgEx envEx v sr mr avc none).isSome) :=
  ⟨by decide, scoring_total_on_wf_records cfgEx envEx [v1Ex] none none (by decide)⟩
